import Mathlib

/-
Shallow embedding of the wtanet repository (kds300/wtanet).

Source files embedded:
  src/wtanet/proc/wtalayer/process.py  (class WTALayer)
  src/wtanet/proc/wtalayer/models.py   (class SubWTALayerModel)

Matrices are lists of rows of rationals, mirroring numpy 2-D float arrays.
-/

/-- A matrix: list of rows, mirroring a numpy 2-D array. -/
abbrev Mat := List (List ℚ)

/-- A vector of rationals, mirroring a numpy 1-D array. -/
abbrev Vec := List ℚ

/-- Entry (i, j) of a matrix, defaulting to 0 out of bounds. -/
def entry (m : Mat) (i j : ℕ) : ℚ := (m.getD i []).getD j 0

/-- Build an r-by-c matrix from an entry function (helper for np.eye / np.ones). -/
def mkMat (r c : ℕ) (f : ℕ → ℕ → ℚ) : Mat :=
  (List.range r).map (fun i => (List.range c).map (fun j => f i j))

/-- np.eye(n): identity matrix. -/
def eyeM (n : ℕ) : Mat := mkMat n n (fun i j => if i = j then 1 else 0)

/-- np.ones((n, n)): all-ones matrix. -/
def onesM (n : ℕ) : Mat := mkMat n n (fun _ _ => 1)

/-- Elementwise matrix subtraction (numpy a - b on same-shape arrays). -/
def subM (a b : Mat) : Mat :=
  List.zipWith (fun ra rb => List.zipWith (fun x y => x - y) ra rb) a b

/-- Elementwise multiplication of a matrix by a scalar (numpy m * w, scalar w). -/
def scaleM (m : Mat) (w : ℚ) : Mat :=
  m.map (fun row => row.map (fun x => x * w))

/-- Numpy broadcasting m * ws for a 1-D ws: each row is multiplied
elementwise by ws, so entry (i, j) becomes m[i][j] * ws[j]. -/
def colBroadcast (m : Mat) (ws : Vec) : Mat :=
  m.map (fun row => List.zipWith (fun x y => x * y) row ws)

/-- Elementwise product of two same-shape matrices (numpy a * b, 2-D b). -/
def hadamard (a b : Mat) : Mat :=
  List.zipWith (fun ra rb => List.zipWith (fun x y => x * y) ra rb) a b

/-- A weight specification as accepted by the Python code: a Python scalar,
a 1-D numpy array, a 2-D numpy array, or a (1-D or 2-D) nested Python list,
which numpy coerces during arithmetic but which is not an ndarray. -/
inductive WSpec where
  | scalar (w : ℚ)
  | arr1 (ws : Vec)
  | arr2 (m : Mat)
  | pylist1 (ws : Vec)
  | pylist2 (m : Mat)
deriving DecidableEq

/-- The test isinstance(w, np.ndarray) and w.ndim == 2 from models.py:
true exactly for a 2-D numpy ndarray. -/
def isNdarray2D : WSpec → Bool
  | .arr2 _ => true
  | _ => false

/-- The numpy expression base * w, for each kind of right operand:
scalar broadcast, 1-D column broadcast, or elementwise 2-D product
(nested Python lists are coerced to arrays by numpy's multiplication). -/
def numpyMul (base : Mat) : WSpec → Mat
  | .scalar c => scaleM base c
  | .arr1 ws => colBroadcast base ws
  | .arr2 m => hadamard base m
  | .pylist1 ws => colBroadcast base ws
  | .pylist2 m => hadamard base m

/-- The weight-normalization step of SubWTALayerModel (models.py lines 39-46):
if w is not a 2-D ndarray, replace it by base * w; a 2-D ndarray is kept
unchanged. base is np.eye(n) for input/excitatory and
np.ones((n, n)) - np.eye(n) for inhibitory. -/
def processWeight (base : Mat) : WSpec → Mat
  | .arr2 m => m
  | w => numpyMul base w

/-- Input pathway weight construction: processWeight with base np.eye(shape[0]). -/
def buildInpWeights (n : ℕ) (w : WSpec) : Mat := processWeight (eyeM n) w

/-- Excitatory pathway weight construction: processWeight with base np.eye(shape[0]). -/
def buildExcWeights (n : ℕ) (w : WSpec) : Mat := processWeight (eyeM n) w

/-- Inhibitory pathway weight construction: processWeight with base
np.ones((shape[0], shape[0])) - np.eye(shape[0]). -/
def buildInhWeights (n : ℕ) (w : WSpec) : Mat :=
  processWeight (subM (onesM n) (eyeM n)) w

section MatLemmas

/-- zipWith over two maps of the same list fuses into one map. -/
theorem zipWith_map_same {α β γ : Type} (g : β → β → γ) (f₁ f₂ : α → β) :
    ∀ l : List α, List.zipWith g (l.map f₁) (l.map f₂) = l.map (fun x => g (f₁ x) (f₂ x))
  | [] => rfl
  | a :: l => by simp [zipWith_map_same g f₁ f₂ l]

/-- getD over a map of List.range evaluates the function, in bounds. -/
theorem getD_map_range {α : Type} (f : ℕ → α) (d : α) {i n : ℕ} (h : i < n) :
    ((List.range n).map f).getD i d = f i := by
  rw [List.getD_eq_getElem?_getD, List.getElem?_map, List.getElem?_range h]
  rfl

/-- getD of a zipWith evaluates pointwise, in bounds. -/
theorem getD_zipWith (g : ℚ → ℚ → ℚ) :
    ∀ (l₁ l₂ : List ℚ) (j : ℕ), j < l₁.length → j < l₂.length →
      (List.zipWith g l₁ l₂).getD j 0 = g (l₁.getD j 0) (l₂.getD j 0)
  | [], _, _, h₁, _ => absurd h₁ (by simp)
  | _ :: _, [], _, _, h₂ => absurd h₂ (by simp)
  | x :: l₁, y :: l₂, 0, _, _ => rfl
  | x :: l₁, y :: l₂, j + 1, h₁, h₂ => by
      simpa using getD_zipWith g l₁ l₂ j (by simpa using h₁) (by simpa using h₂)

theorem length_mkMat (r c : ℕ) (f : ℕ → ℕ → ℚ) : (mkMat r c f).length = r := by
  simp [mkMat]

theorem row_mkMat {r : ℕ} (c : ℕ) (f : ℕ → ℕ → ℚ) {i : ℕ} (h : i < r) :
    (mkMat r c f).getD i [] = (List.range c).map (f i) := by
  unfold mkMat
  exact getD_map_range _ _ h

theorem rowLength_mkMat {r : ℕ} (c : ℕ) (f : ℕ → ℕ → ℚ) {i : ℕ} (h : i < r) :
    ((mkMat r c f).getD i []).length = c := by
  rw [row_mkMat c f h]; simp

theorem entry_mkMat {r c : ℕ} (f : ℕ → ℕ → ℚ) {i j : ℕ} (hi : i < r) (hj : j < c) :
    entry (mkMat r c f) i j = f i j := by
  rw [entry, row_mkMat c f hi, getD_map_range _ _ hj]

theorem subM_mkMat (r c : ℕ) (f g : ℕ → ℕ → ℚ) :
    subM (mkMat r c f) (mkMat r c g) = mkMat r c (fun i j => f i j - g i j) := by
  simp [subM, mkMat, zipWith_map_same]

theorem scaleM_mkMat (r c : ℕ) (f : ℕ → ℕ → ℚ) (w : ℚ) :
    scaleM (mkMat r c f) w = mkMat r c (fun i j => f i j * w) := by
  simp [scaleM, mkMat, Function.comp]

end MatLemmas

/-- The keyword-argument dictionary passed to WTALayer and stored as
proc_params; a field is none when the option was omitted by the caller. -/
structure ProcParams where
  shape : Option (ℕ × ℕ)
  inp_weights : Option WSpec
  exc_weights : Option WSpec
  inh_weights : Option WSpec
  du : Option ℚ
  dv : Option ℚ
  vth : Option ℚ
  num_message_bits : Option ℕ
deriving DecidableEq

/-- Parameters with every option omitted. -/
def emptyParams : ProcParams := ⟨none, none, none, none, none, none, none, none⟩

/-- State of a WTALayer process as declared in process.py: ports, Var
initial values, and the raw weight specifications stored in the Vars. -/
structure WTALayerProc where
  shape : ℕ × ℕ
  sInShape : ℕ
  sOutShape : ℕ
  u : Vec
  v : Vec
  duVar : ℚ
  dvVar : ℚ
  vthVar : ℚ
  inpWeightsInit : WSpec
  excWeightsInit : WSpec
  inhWeightsInit : WSpec
  numMessageBits : ℕ

/-- WTALayer.__init__ (process.py lines 91-112): reads each kwarg with its
default (inp_weights 0, exc_weights 5, inh_weights -5, du 4095, dv 0,
vth 10, num_message_bits 1), declares s_in of width shape[1] and s_out of
width shape[0], and initializes the u and v Vars to 0 with shape (shape[0],). -/
def wtaLayer (kw : ProcParams) : WTALayerProc :=
  let shape := kw.shape.getD (1, 1)
  { shape := shape
    sInShape := shape.2
    sOutShape := shape.1
    u := List.replicate shape.1 0
    v := List.replicate shape.1 0
    duVar := kw.du.getD 4095
    dvVar := kw.dv.getD 0
    vthVar := kw.vth.getD 10
    inpWeightsInit := kw.inp_weights.getD (.scalar 0)
    excWeightsInit := kw.exc_weights.getD (.scalar 5)
    inhWeightsInit := kw.inh_weights.getD (.scalar (-5))
    numMessageBits := kw.num_message_bits.getD 1 }

/-- A call to the Dense constructor: the weights argument and the
num_message_bits argument when it was passed (none when omitted). -/
structure DenseCall where
  weights : Mat
  numMessageBits : Option ℕ
deriving DecidableEq

/-- A call to the LIF constructor with the arguments used in models.py. -/
structure LIFCall where
  shape : ℕ
  du : ℚ
  dv : ℚ
  vth : ℚ
deriving DecidableEq

/-- Ports appearing in the wiring of SubWTALayerModel (models.py lines 58-64). -/
inductive Port where
  | proc_s_in
  | proc_s_out
  | dense_s_in
  | dense_a_out
  | lif_a_in
  | lif_s_out
  | dense_exc_s_in
  | dense_exc_a_out
  | dense_inh_s_in
  | dense_inh_a_out
deriving DecidableEq

/-- The structure built by SubWTALayerModel: the three Dense subprocesses,
the LIF population, and the port connections. -/
structure SubModel where
  dense : DenseCall
  lif : LIFCall
  dense_exc : DenseCall
  dense_inh : DenseCall
  connections : List (Port × Port)

/-- SubWTALayerModel.__init__ (models.py lines 22-76): reads proc_params
with models.py's own defaults (note inp_weights defaults to 1 here),
normalizes the three weight specifications, constructs the subprocesses
(only the input Dense receives num_message_bits), and wires the ports. -/
def subWTALayerModel (kw : ProcParams) : SubModel :=
  let shape := kw.shape.getD (1, 1)
  let inp_weights := kw.inp_weights.getD (.scalar 1)
  let exc_weights := kw.exc_weights.getD (.scalar 5)
  let inh_weights := kw.inh_weights.getD (.scalar (-5))
  let du := kw.du.getD 4095
  let dv := kw.dv.getD 0
  let vth := kw.vth.getD 10
  let num_message_bits := kw.num_message_bits.getD 1
  { dense := ⟨buildInpWeights shape.1 inp_weights, some num_message_bits⟩
    lif := ⟨shape.1, du, dv, vth⟩
    dense_exc := ⟨buildExcWeights shape.1 exc_weights, none⟩
    dense_inh := ⟨buildInhWeights shape.1 inh_weights, none⟩
    connections :=
      [ (.proc_s_in, .dense_s_in)
      , (.dense_a_out, .lif_a_in)
      , (.lif_s_out, .proc_s_out)
      , (.lif_s_out, .dense_exc_s_in)
      , (.dense_exc_a_out, .lif_a_in)
      , (.lif_s_out, .dense_inh_s_in)
      , (.dense_inh_a_out, .lif_a_in) ] }

/-- Outcome of the construction-time weight check described by the spec. -/
inductive ConfigOutcome where
  | ok (m : Mat)
  | configurationError
deriving DecidableEq

/-- Modelled from the spec: the spec's section 4.1 and 7 describe a
ConfigurationError raised when a supplied 2-D matrix's shape disagrees
with the declared layer shape; no such check exists anywhere in src/.
This definition follows the spec's words, for comparison with the
source's processWeight, which is total and never fails. -/
def specCheckedWeights (declared : ℕ × ℕ) (base : Mat) (w : WSpec) : ConfigOutcome :=
  match w with
  | .arr2 m =>
      if m.length = declared.1 ∧ ∀ row ∈ m, row.length = declared.2 then .ok m
      else .configurationError
  | w => .ok (numpyMul base w)

/-- Dot product of two rational vectors (truncating at the shorter). -/
def dotL : Vec → Vec → ℚ
  | [], _ => 0
  | _ :: _, [] => 0
  | x :: xs, y :: ys => x * y + dotL xs ys

/-- Matrix-vector product, one dot product per row. -/
def matVec (m : Mat) (x : Vec) : Vec := m.map (fun row => dotL row x)

/-- Elementwise vector addition. -/
def addV (a b : Vec) : Vec := List.zipWith (fun x y => x + y) a b

/-- Modelled from the spec: under the host framework's synchronous protocol
(outside src/), the feedback Dense processes deliver at step t the spikes
the population emitted at step t-1; at step 0 no spikes have been emitted,
so the feedback contribution is the zero vector of population width n. -/
def prevOut (n : ℕ) (sOut : ℕ → Vec) : ℕ → Vec
  | 0 => List.replicate n 0
  | Nat.succ t => sOut t

/-- Modelled from the spec: the total synaptic current a_in delivered to the
population at step t, following the wiring of models.py lines 58-64: the
input Dense applied to this step's external spikes plus the excitatory and
inhibitory Dense processes applied to the previous step's own output. -/
def aInAt (n : ℕ) (wInp wExc wInh : Mat) (sIn sOut : ℕ → Vec) (t : ℕ) : Vec :=
  addV (matVec wInp (sIn t))
    (addV (matVec wExc (prevOut n sOut t)) (matVec wInh (prevOut n sOut t)))

theorem colBroadcast_mkMat (r c : ℕ) (f : ℕ → ℕ → ℚ) (ws : Vec) :
    colBroadcast (mkMat r c f) ws
      = (List.range r).map
          (fun i => List.zipWith (fun x y => x * y) ((List.range c).map (f i)) ws) := by
  simp [colBroadcast, mkMat]

/-- C1: for every population size N and scalar w, the inhibitory weight
matrix is N-by-N with w at every off-diagonal entry and 0 on the diagonal,
that is, w * (J - I). -/
theorem inh_scalar_uniform (n : ℕ) (w : ℚ) (i j : ℕ) (hi : i < n) (hj : j < n) :
    (buildInhWeights n (WSpec.scalar w)).length = n ∧
    ((buildInhWeights n (WSpec.scalar w)).getD i []).length = n ∧
    entry (buildInhWeights n (WSpec.scalar w)) i j = if i = j then 0 else w := by
  have hb : buildInhWeights n (WSpec.scalar w)
      = mkMat n n (fun i j => (1 - if i = j then (1 : ℚ) else 0) * w) := by
    simp [buildInhWeights, processWeight, numpyMul, onesM, eyeM, subM_mkMat, scaleM_mkMat]
  refine ⟨?_, ?_, ?_⟩
  · rw [hb, length_mkMat]
  · rw [hb, rowLength_mkMat _ _ hi]
  · rw [hb, entry_mkMat _ hi hj]
    by_cases h : i = j <;> simp [h]

/-- C1 witness: N = 3, w = 2, off-diagonal entry (0, 1) is 2. -/
theorem inh_scalar_uniform_witness :
    entry (buildInhWeights 3 (WSpec.scalar 2)) 0 1 = 2 := by
  simpa using (inh_scalar_uniform 3 2 0 1 (by decide) (by decide)).2.2

/-- C2: for every population size N, the input and excitatory weight
matrices for a scalar w are diag(w) (w on the diagonal, 0 elsewhere), and
for a 1-D sequence ws of length N they are diag(ws) (entry (i, i) is ws[i]). -/
theorem inp_exc_diagonal (n : ℕ) (w : ℚ) (ws : Vec) (i j : ℕ)
    (hi : i < n) (hj : j < n) (hlen : ws.length = n) :
    (buildInpWeights n (WSpec.scalar w)).length = n ∧
    entry (buildInpWeights n (WSpec.scalar w)) i j = (if i = j then w else 0) ∧
    entry (buildExcWeights n (WSpec.scalar w)) i j = (if i = j then w else 0) ∧
    entry (buildInpWeights n (WSpec.arr1 ws)) i j = (if i = j then ws.getD i 0 else 0) ∧
    entry (buildExcWeights n (WSpec.arr1 ws)) i j = (if i = j then ws.getD i 0 else 0) := by
  have hs : buildInpWeights n (WSpec.scalar w)
      = mkMat n n (fun i j => (if i = j then (1 : ℚ) else 0) * w) := by
    simp [buildInpWeights, processWeight, numpyMul, eyeM, scaleM_mkMat]
  have hsEntry : entry (buildInpWeights n (WSpec.scalar w)) i j
      = (if i = j then w else 0) := by
    rw [hs, entry_mkMat _ hi hj]
    by_cases h : i = j <;> simp [h]
  have ha : buildInpWeights n (WSpec.arr1 ws)
      = (List.range n).map
          (fun i => List.zipWith (fun x y => x * y)
            ((List.range n).map (fun j => if i = j then (1 : ℚ) else 0)) ws) := by
    simp [buildInpWeights, processWeight, numpyMul, eyeM, colBroadcast_mkMat]
  have haEntry : entry (buildInpWeights n (WSpec.arr1 ws)) i j
      = (if i = j then ws.getD i 0 else 0) := by
    rw [entry, ha, getD_map_range _ _ hi,
      getD_zipWith _ _ _ _ (by simpa using hj) (by rw [hlen]; exact hj),
      getD_map_range _ _ hj]
    by_cases h : i = j <;> simp [h]
  have hlenInp : (buildInpWeights n (WSpec.scalar w)).length = n := by
    rw [hs, length_mkMat]
  exact ⟨hlenInp, hsEntry, hsEntry, haEntry, haEntry⟩

/-- C2 witness: N = 2, scalar 7 gives diagonal entry (1, 1) equal to 7,
and the 1-D sequence [3, 4] gives diagonal entry (1, 1) equal to 4. -/
theorem inp_exc_diagonal_witness :
    entry (buildInpWeights 2 (WSpec.scalar 7)) 1 1 = 7 ∧
    entry (buildInpWeights 2 (WSpec.arr1 [3, 4])) 1 1 = 4 := by
  have h := inp_exc_diagonal 2 7 [3, 4] 1 1 (by decide) (by decide) (by decide)
  exact ⟨by simpa using h.2.1, by simpa using h.2.2.2.1⟩

/-- C3: a 2-D weight matrix whose shape matches the declared layer shape is
used unchanged as the pathway weight matrix, for each of the input,
excitatory, and inhibitory pathways. -/
theorem matrix_roundtrip (n : ℕ) (m : Mat) (_hrows : m.length = n)
    (_hcols : ∀ row ∈ m, row.length = n) :
    buildInpWeights n (WSpec.arr2 m) = m ∧
    buildExcWeights n (WSpec.arr2 m) = m ∧
    buildInhWeights n (WSpec.arr2 m) = m :=
  ⟨rfl, rfl, rfl⟩

/-- C3 witness: a correctly shaped 2-by-2 matrix passes through unchanged. -/
theorem matrix_roundtrip_witness :
    buildInpWeights 2 (WSpec.arr2 [[1, 2], [3, 4]]) = [[1, 2], [3, 4]] :=
  (matrix_roundtrip 2 [[1, 2], [3, 4]] (by decide) (by decide)).1

/-- A 3-by-3 matrix, mismatching a declared (2, 2) layer shape. -/
def badM : Mat := [[1, 2, 3], [4, 5, 6], [7, 8, 9]]

/-- Parameters declaring shape (2, 2) but supplying a 3-by-3 excitatory matrix. -/
def kwMismatch : ProcParams :=
  ⟨some (2, 2), none, some (.arr2 badM), none, none, none, none, none⟩

/-- C4 counterexample: with declared shape (2, 2) and a 3-by-3 excitatory
matrix, construction completes normally and uses the mismatched matrix
unchanged — no ConfigurationError is raised anywhere in the source — while
the check described by the spec would have rejected the same input. -/
theorem no_configuration_error :
    (subWTALayerModel kwMismatch).dense_exc.weights = badM ∧
    badM.length = 3 ∧
    (wtaLayer kwMismatch).shape = (2, 2) ∧
    specCheckedWeights (2, 2) (eyeM 2) (WSpec.arr2 badM)
      = ConfigOutcome.configurationError := by
  refine ⟨rfl, rfl, rfl, ?_⟩
  decide

/-- C4 amended: construction performs no shape validation at all — for every
declared shape and every 2-D matrices supplied for the three pathways,
construction completes with each matrix used unchanged. -/
theorem no_shape_validation (sh : ℕ × ℕ) (mi me mh : Mat)
    (duA dvA vthA : ℚ) (nmb : ℕ) :
    (subWTALayerModel ⟨some sh, some (.arr2 mi), some (.arr2 me), some (.arr2 mh),
        some duA, some dvA, some vthA, some nmb⟩).dense.weights = mi ∧
    (subWTALayerModel ⟨some sh, some (.arr2 mi), some (.arr2 me), some (.arr2 mh),
        some duA, some dvA, some vthA, some nmb⟩).dense_exc.weights = me ∧
    (subWTALayerModel ⟨some sh, some (.arr2 mi), some (.arr2 me), some (.arr2 mh),
        some duA, some dvA, some vthA, some nmb⟩).dense_inh.weights = mh :=
  ⟨rfl, rfl, rfl⟩

/-- C5: with every option omitted, the exposed process state carries the
documented defaults (inp_weights 0, exc_weights 5, inh_weights -5, du 4095,
dv 0, vth 10, num_message_bits 1) — but the subprocess model reads
inp_weights with its own default 1, so the input Dense it parameterizes is
built from np.eye(1) * 1 = [[1]], whose (0, 0) entry is 1, not 0. -/
theorem default_inp_weight_divergence :
    (wtaLayer emptyParams).inpWeightsInit = WSpec.scalar 0 ∧
    (wtaLayer emptyParams).excWeightsInit = WSpec.scalar 5 ∧
    (wtaLayer emptyParams).inhWeightsInit = WSpec.scalar (-5) ∧
    (wtaLayer emptyParams).duVar = 4095 ∧
    (wtaLayer emptyParams).dvVar = 0 ∧
    (wtaLayer emptyParams).vthVar = 10 ∧
    (wtaLayer emptyParams).numMessageBits = 1 ∧
    (subWTALayerModel emptyParams).lif = ⟨1, 4095, 0, 10⟩ ∧
    (subWTALayerModel emptyParams).dense.numMessageBits = some 1 ∧
    (subWTALayerModel emptyParams).dense.weights = [[1]] ∧
    entry (subWTALayerModel emptyParams).dense.weights 0 0 ≠ 0 := by
  have hW : (subWTALayerModel emptyParams).dense.weights = [[1]] := by
    show scaleM (eyeM 1) 1 = [[1]]
    norm_num [scaleM, eyeM, mkMat, List.range_succ]
  refine ⟨rfl, rfl, rfl, rfl, rfl, rfl, rfl, rfl, rfl, hW, ?_⟩
  rw [hW]
  simp [entry]

/-- Parameters with a rectangular declared shape (2, 3) and scalar input weights. -/
def kwRect : ProcParams :=
  ⟨some (2, 3), some (.scalar 1), none, none, none, none, none, none⟩

/-- C6 failing-input evaluation: for declared shape (2, 3) the process
declares s_in of width 3, but the model builds the input Dense weights as
np.eye(2) * 1, a 2-by-2 matrix rather than the 2-by-3 matrix the claim
(and the process's own Var and port declarations) require. -/
theorem input_matrix_square_bug :
    (wtaLayer kwRect).sInShape = 3 ∧
    (wtaLayer kwRect).sOutShape = 2 ∧
    ((subWTALayerModel kwRect).dense.weights).length = 2 ∧
    (((subWTALayerModel kwRect).dense.weights).getD 0 []).length = 2 ∧
    (((subWTALayerModel kwRect).dense.weights).getD 1 []).length = 2 ∧
    (2 : ℕ) ≠ 3 := by
  refine ⟨rfl, rfl, ?_, ?_, ?_, ?_⟩ <;> decide

/-- C7: num_message_bits parameterizes only the input Dense; the excitatory
and inhibitory Dense processes are constructed without it, and both are fed
from the population's own spike output port. -/
theorem num_message_bits_only_input (kw : ProcParams) :
    (subWTALayerModel kw).dense.numMessageBits = some (kw.num_message_bits.getD 1) ∧
    (subWTALayerModel kw).dense_exc.numMessageBits = none ∧
    (subWTALayerModel kw).dense_inh.numMessageBits = none ∧
    (Port.lif_s_out, Port.dense_exc_s_in) ∈ (subWTALayerModel kw).connections ∧
    (Port.lif_s_out, Port.dense_inh_s_in) ∈ (subWTALayerModel kw).connections := by
  refine ⟨rfl, rfl, rfl, ?_, ?_⟩ <;> simp [subWTALayerModel]

/-- C8: at construction the u and v Vars both have length shape[0] and every
entry of each is 0. -/
theorem u_v_zero_init (kw : ProcParams) :
    (wtaLayer kw).u.length = (wtaLayer kw).sOutShape ∧
    (wtaLayer kw).v.length = (wtaLayer kw).sOutShape ∧
    (∀ x ∈ (wtaLayer kw).u, x = 0) ∧
    (∀ x ∈ (wtaLayer kw).v, x = 0) := by
  refine ⟨by simp [wtaLayer], by simp [wtaLayer], ?_, ?_⟩ <;>
    exact fun x hx => List.eq_of_mem_replicate (by simpa [wtaLayer] using hx)

/-- Parameters declaring a (3, 3) layer with everything else omitted. -/
def kwShape3 : ProcParams := ⟨some (3, 3), none, none, none, none, none, none, none⟩

/-- C8 witness: for shape (3, 3), u has length 3 and its entry 0 is 0. -/
theorem u_v_zero_init_witness :
    (wtaLayer kwShape3).u.length = (wtaLayer kwShape3).sOutShape ∧
    (wtaLayer kwShape3).u.getD 0 99 = 0 :=
  ⟨(u_v_zero_init kwShape3).1,
   (u_v_zero_init kwShape3).2.2.1 _ (by decide)⟩

/-- C9: the synaptic current a_in delivered at step t depends only on output
spikes at steps strictly before t — two runs whose output sequences agree
below step t receive identical a_in at step t, so a spike produced at step
t can contribute only from step t + 1 onward. -/
theorem causal_feedback (n : ℕ) (wInp wExc wInh : Mat) (sIn sOutA sOutB : ℕ → Vec)
    (t : ℕ) (h : ∀ s, s < t → sOutA s = sOutB s) :
    aInAt n wInp wExc wInh sIn sOutA t = aInAt n wInp wExc wInh sIn sOutB t := by
  cases t with
  | zero => rfl
  | succ t => simp [aInAt, prevOut, h t (Nat.lt_succ_self t)]

/-- A constant external input: one spike every step. -/
def sInConst : ℕ → Vec := fun _ => [1]

/-- An output run spiking at step 0 only. -/
def sOutRunA : ℕ → Vec := fun s => if s = 0 then [1] else [0]

/-- An output run spiking at step 0 and every later step. -/
def sOutRunB : ℕ → Vec := fun s => if s = 0 then [1] else [1]

/-- C9 witness: two runs agreeing at step 0 but differing at step 1 still
receive the same a_in at step 1. -/
theorem causal_feedback_witness :
    sOutRunA 1 ≠ sOutRunB 1 ∧
    aInAt 1 [[1]] [[5]] [[0]] sInConst sOutRunA 1
      = aInAt 1 [[1]] [[5]] [[0]] sInConst sOutRunB 1 :=
  ⟨by decide,
   causal_feedback 1 [[1]] [[5]] [[0]] sInConst sOutRunA sOutRunB 1
     (by intro s hs
         have hzero : s = 0 := Nat.lt_one_iff.mp hs
         simp [hzero, sOutRunA, sOutRunB])⟩

/-- C10: the use-unchanged branch fires exactly for a 2-D numpy ndarray;
every other specification — a 2-D nested Python list included — is routed
through the numpy elementwise product with the pathway's base matrix
(identity for input/excitatory, all-ones minus identity for inhibitory). -/
theorem ndarray_branch_only (n : ℕ) (base : Mat) (w : WSpec) (m : Mat)
    (h : isNdarray2D w = false) :
    processWeight base (WSpec.arr2 m) = m ∧
    processWeight base w = numpyMul base w ∧
    buildInpWeights n (WSpec.pylist2 m) = hadamard (eyeM n) m ∧
    buildInhWeights n (WSpec.pylist2 m) = hadamard (subM (onesM n) (eyeM n)) m := by
  refine ⟨rfl, ?_, rfl, rfl⟩
  cases w with
  | arr2 m2 => simp [isNdarray2D] at h
  | scalar c => rfl
  | arr1 ws => rfl
  | pylist1 ws => rfl
  | pylist2 mm => rfl

/-- C10 witness: a 2-by-2 nested Python list goes through the expansion
path — it is multiplied elementwise with the identity, so it is not used
unchanged (its off-diagonal is zeroed). -/
theorem ndarray_branch_only_witness :
    processWeight (eyeM 2) (WSpec.pylist2 [[1, 2], [3, 4]])
      = numpyMul (eyeM 2) (WSpec.pylist2 [[1, 2], [3, 4]]) ∧
    buildInpWeights 2 (WSpec.pylist2 [[1, 2], [3, 4]]) ≠ [[1, 2], [3, 4]] :=
  ⟨(ndarray_branch_only 2 (eyeM 2) (WSpec.pylist2 [[1, 2], [3, 4]])
      [[1, 2], [3, 4]] (by decide)).2.1,
   by
    have h2 : buildInpWeights 2 (WSpec.pylist2 [[1, 2], [3, 4]])
        = [[1, 0], [0, 4]] := by
      show hadamard (eyeM 2) [[1, 2], [3, 4]] = [[1, 0], [0, 4]]
      norm_num [hadamard, eyeM, mkMat, List.range_succ]
    rw [h2]
    decide⟩
